import Mathlib

/-
Verification development for the Reaktoro demo script
`src/demos/python/demo-equilibrium-gems.py` and the equilibrium-core design
described in the repository's specification.

The repository's only source file is the demo script itself; the chemistry
engine it calls (species table, chemical state, equilibrium solver, state
reporter) is library code not present under `src/`.  Those components are
therefore modelled from the specification, faithful to its words; each such
definition carries a doc comment starting `Modelled from the spec:`.
The demo script, by contrast, is embedded directly from the source file.
-/

namespace Reaktoro

/-- Modelled from the spec: the error taxonomy of the reconstructed core
(spec section 7): `UnknownSpecies`, `InvalidAmount`, `ConvergenceFailure`,
`InfeasibleConstraints`, and a write-failure error for report output. -/
inductive Err where
  | UnknownSpecies
  | InvalidAmount
  | ConvergenceFailure
  | InfeasibleConstraints
  | writeFailure
deriving DecidableEq

/-- Modelled from the spec: `SpeciesAmountTable` (spec sections 3 and 4.1),
library code not under `src/` — a mapping from species name to molar amount,
kept in the stable order of the originating table, together with a flag
recording whether the table was constructed closed-universe. -/
structure SpeciesAmountTable where
  entries : List (String × ℚ)
  closed : Bool
deriving DecidableEq

/-- Amount of the first entry named `n`, if any. -/
def lookupAmount : List (String × ℚ) → String → Option ℚ
  | [], _ => none
  | p :: l, n => if p.1 = n then some p.2 else lookupAmount l n

/-- Whether an entry list names species `n`. -/
def hasName : List (String × ℚ) → String → Bool
  | [], _ => false
  | p :: l, n => decide (p.1 = n) || hasName l n

/-- Modelled from the spec: `get(name) -> amount`, failing with
`UnknownSpecies` if `name` is absent (spec section 4.1). -/
def SpeciesAmountTable.get (t : SpeciesAmountTable) (n : String) : Except Err ℚ :=
  match lookupAmount t.entries n with
  | some a => .ok a
  | none => .error .UnknownSpecies

/-- Whether the table has an entry for species `n`. -/
def SpeciesAmountTable.has (t : SpeciesAmountTable) (n : String) : Bool :=
  hasName t.entries n

/-- Overwrite the amount of species `n` in an entry list, keeping order. -/
def setEntries (l : List (String × ℚ)) (n : String) (a : ℚ) : List (String × ℚ) :=
  l.map (fun p => if p.1 = n then (n, a) else p)

/-- Modelled from the spec: `set(name, amount)` (spec section 4.1) — fails with
`InvalidAmount` if `amount < 0`; fails with `UnknownSpecies` if the table was
constructed closed-universe and `name` is not a recognized species
(open-universe variants insert); otherwise overwrites the prior amount.
The pair returned is (error if any, table after the call), so an error result
carrying the original table expresses that a failed call leaves the table
unchanged. -/
def SpeciesAmountTable.set (t : SpeciesAmountTable) (n : String) (a : ℚ) :
    Option Err × SpeciesAmountTable :=
  if a < 0 then (some .InvalidAmount, t)
  else if t.has n then (none, { t with entries := setEntries t.entries n a })
  else if t.closed then (some .UnknownSpecies, t)
  else (none, { t with entries := t.entries ++ [(n, a)] })

/-- Modelled from the spec: `ChemicalState` (spec sections 3 and 4.2), library
code not under `src/` — scalar temperature and pressure plus one owned
`SpeciesAmountTable`. -/
structure ChemicalState where
  temperature : ℚ
  pressure : ℚ
  table : SpeciesAmountTable
deriving DecidableEq

/-- Modelled from the spec: `setSpeciesAmount(name, amount)` delegates to
`SpeciesAmountTable.set` and fails with the same error kinds
(spec section 4.2). -/
def ChemicalState.setSpeciesAmount (s : ChemicalState) (n : String) (a : ℚ) :
    Option Err × ChemicalState :=
  let r := s.table.set n a
  (r.1, { s with table := r.2 })

/-- Pad a digit string on the left with zeros up to width `d`. -/
def padZeros (d : Nat) (str : String) : String :=
  String.mk (List.replicate (d - str.length) '0') ++ str

/-- Fixed-decimal rendering of a rational with `d` digits after the point,
rounding to nearest.  Modelled from the spec: exact numeric formatting (fixed
decimal count) is pinned by configuration so output is byte-reproducible
(spec section 6). -/
def formatFixed (d : Nat) (q : ℚ) : String :=
  let scaled : ℤ := Rat.floor (q * (10 : ℚ) ^ d + 1 / 2)
  let sign := if scaled < 0 then "-" else ""
  let m := scaled.natAbs
  sign ++ toString (m / 10 ^ d) ++ "." ++ padZeros d (toString (m % 10 ^ d))

/-- The temperature header line of a report. -/
def temperatureLine (s : ChemicalState) : String :=
  "Temperature: " ++ formatFixed 6 s.temperature

/-- The pressure header line of a report. -/
def pressureLine (s : ChemicalState) : String :=
  "Pressure: " ++ formatFixed 6 s.pressure

/-- One report line per species: its name and its amount. -/
def speciesLine (p : String × ℚ) : String :=
  p.1 ++ " " ++ formatFixed 6 p.2

/-- Modelled from the spec: the lines of a `StateReporter` report — two header
lines for temperature and pressure, then one line per species, the species in
the stable order established by the originating table (spec sections 4.4
and 6).  The reporter itself is library code not under `src/`. -/
def StateReporter.formatLines (s : ChemicalState) : List String :=
  temperatureLine s :: pressureLine s :: s.table.entries.map speciesLine

/-- Modelled from the spec: `StateReporter.format(state) -> text`
(spec section 4.4). -/
def StateReporter.format (s : ChemicalState) : String :=
  String.intercalate "\n" (StateReporter.formatLines s)

/-- A file system as a list of (path, contents) pairs, newest write first. -/
def FileSystem : Type := List (String × String)

/-- Write a file, overwriting any previous file at the same path (spec
section 6: always overwrite, no append). -/
def writeFile (fs : FileSystem) (p content : String) : FileSystem :=
  (p, content) :: fs.filter (fun q => q.1 != p)

/-- Modelled from the spec: `ChemicalState.output(path)` delegates to
`StateReporter.format` and then writes the text to `path`; it does not mutate
the state (spec section 4.2).  The call returns the state after the call
together with the updated file system. -/
def ChemicalState.output (s : ChemicalState) (p : String) (fs : FileSystem) :
    ChemicalState × FileSystem :=
  (s, writeFile fs p (StateReporter.format s))

/-- Modelled from the spec: the externally supplied species/element
stoichiometry model (spec sections 4.3 and 6) — a list of tracked elements and
a coefficient function giving, for a species name and an element name, the
stoichiometric coefficient of that element in that species. -/
structure StoichModel where
  elements : List String
  coeff : String → String → ℚ

/-- Total moles of element `e`: the sum over species of the species amount
weighted by its stoichiometric coefficient for `e`. -/
def elementTotal (m : StoichModel) (entries : List (String × ℚ)) (e : String) : ℚ :=
  (entries.map (fun p => p.2 * m.coeff p.1 e)).sum

/-- The element totals of an entry list, one per tracked element. -/
def elementTotals (m : StoichModel) (entries : List (String × ℚ)) : List ℚ :=
  m.elements.map (elementTotal m entries)

/-- Modelled from the spec: an `EquilibriumSolver` holds the immutable
stoichiometry configuration and the Gibbs-energy-minimization procedure, which
the spec treats as an external service (spec sections 1, 4.3 and 6): given
temperature and pressure, the fixed element totals, and the current species
amounts, `minimize` returns candidate equilibrium species amounts. -/
structure EquilibriumSolver where
  model : StoichModel
  minimize : ℚ × ℚ → List ℚ → List (String × ℚ) → List (String × ℚ)

/-- Feasibility of the input: no element has negative total mass
(spec section 4.3, failure `InfeasibleConstraints`) and no species carries a
negative amount (spec section 8 scenario). -/
def feasible (m : StoichModel) (entries : List (String × ℚ)) : Bool :=
  m.elements.all (fun e => decide (0 ≤ elementTotal m entries e)) &&
    entries.all (fun p => decide (0 ≤ p.2))

/-- Whether `new` has the same total of every tracked element as `old`. -/
def balancedWith (m : StoichModel) (old new : List (String × ℚ)) : Bool :=
  m.elements.all (fun e => decide (elementTotal m new e = elementTotal m old e))

/-- Whether every amount in an entry list is nonnegative. -/
def nonnegAmounts (entries : List (String × ℚ)) : Bool :=
  entries.all (fun p => decide (0 ≤ p.2))

/-- The species amounts the external minimization returns for a state: it is
called at the state's temperature and pressure, under the state's element
totals as the fixed elemental-mass constraints, from the state's current
amounts. -/
def equilibrateResult (solver : EquilibriumSolver) (s : ChemicalState) :
    List (String × ℚ) :=
  solver.minimize (s.temperature, s.pressure)
    (elementTotals solver.model s.table.entries) s.table.entries

/-- The state `equilibrate` returns on success: the input temperature and
pressure, unchanged, over the minimized species amounts. -/
def equilibratedState (solver : EquilibriumSolver) (s : ChemicalState) :
    ChemicalState :=
  { temperature := s.temperature, pressure := s.pressure,
    table := { entries := equilibrateResult solver s, closed := s.table.closed } }

/-- Modelled from the spec: `equilibrate(state) -> state'` (spec section 4.3),
library code not under `src/`.  Equilibration at fixed temperature and
pressure fails with `InfeasibleConstraints` on an infeasible input, otherwise
runs the external minimization under the fixed elemental-mass constraints and
returns the new state, rejecting with `ConvergenceFailure` any candidate that
leaves the constraint set (no feasible equilibrium found). -/
def equilibrate (solver : EquilibriumSolver) (s : ChemicalState) :
    Except Err ChemicalState :=
  if feasible solver.model s.table.entries then
    if balancedWith solver.model s.table.entries (equilibrateResult solver s) &&
        nonnegAmounts (equilibrateResult solver s) then
      .ok (equilibratedState solver s)
    else .error .ConvergenceFailure
  else .error .InfeasibleConstraints

/-
Embedding of the demo script `src/demos/python/demo-equilibrium-gems.py`.
Every statement of the script after the `from reaktoro import *` line is a
simple assignment of a call or a bare call whose callee is a name or an
attribute of a name and whose arguments are names or literals, so the
statement syntax below captures the script exactly; `tryExcept` is included so
that the absence of error handling is a statement about the script, not about
the syntax.
-/

/-- An argument of a call in the script: a name, a string literal, or a
numeric literal. -/
inductive PyArg where
  | aname (s : String)
  | astr (s : String)
  | anum (q : ℚ)
deriving DecidableEq

/-- The callee of a call: a bare name, or an attribute of a name. -/
inductive Callee where
  | cname (s : String)
  | cattr (obj field : String)
deriving DecidableEq

/-- A call expression. -/
structure PyCall where
  callee : Callee
  args : List PyArg
deriving DecidableEq

/-- A statement: an assignment of a call result to a name, a bare call, or a
try/except block guarding calls. -/
inductive PyStmt where
  | assign (target : String) (rhs : PyCall)
  | exprStmt (c : PyCall)
  | tryExcept (body handler : List PyCall)
deriving DecidableEq

/-- The demo script, statement by statement (source lines 29 to 48, after the
`from reaktoro import *` line). -/
def demoScript : List PyStmt :=
  [ .assign "gems" ⟨.cname "Gems", [.astr "../resources/gems/CalciteBC-dat.lst"]⟩,
    .assign "system" ⟨.cname "ChemicalSystem", [.aname "gems"]⟩,
    .assign "state" ⟨.cattr "ChemicalStategems" "state", [.aname "system"]⟩,
    .exprStmt ⟨.cattr "state" "output", [.astr "state-gems2.txt"]⟩,
    .exprStmt ⟨.cattr "state" "setSpeciesAmount", [.astr "CO2@", .anum (1 / 10)]⟩,
    .exprStmt ⟨.cname "equilibrate", [.aname "state"]⟩,
    .exprStmt ⟨.cattr "state" "output", [.astr "state-gems-updated2.txt"]⟩ ]

/-- Names a call argument reads from the environment. -/
def argNames : PyArg → List String
  | .aname s => [s]
  | .astr _ => []
  | .anum _ => []

/-- Names a callee reads from the environment. -/
def calleeNames : Callee → List String
  | .cname s => [s]
  | .cattr obj _ => [obj]

/-- All names a call reads from the environment, callee first, in
left-to-right evaluation order. -/
def PyCall.freeNames (c : PyCall) : List String :=
  calleeNames c.callee ++ (c.args.map argNames).flatten

/-- Report files a call writes.  Modelled from the spec: `output(path)` writes
the report to `path` (spec section 4.2); no other call in the script writes a
file. -/
def PyCall.writes (c : PyCall) : List String :=
  match c.callee with
  | .cattr _ "output" =>
      (c.args.filterMap (fun a =>
        match a with | .astr p => some p | _ => none)).take 1
  | _ => []

/-- The dynamic state of a script run: the defined names and the report files
written so far, in order. -/
structure ExecState where
  env : List String
  written : List String
deriving DecidableEq

/-- The outcome of a script run: normal completion, or an uncaught NameError
naming the undefined name and the index of the statement that raised it. -/
inductive ExecOutcome where
  | ok (st : ExecState)
  | nameError (n : String) (stmtIndex : Nat) (st : ExecState)
deriving DecidableEq

/-- Run one call: resolve its names left to right, raising the first
undefined one as a NameError, else record its file writes. -/
def runCall (st : ExecState) (c : PyCall) : Option String × ExecState :=
  match c.freeNames.find? (fun n => !(st.env.contains n)) with
  | some n => (some n, st)
  | none => (none, { st with written := st.written ++ c.writes })

/-- Run a list of calls in order, stopping at the first NameError. -/
def runCalls (st : ExecState) : List PyCall → Option String × ExecState
  | [] => (none, st)
  | c :: cs =>
    match runCall st c with
    | (some n, st1) => (some n, st1)
    | (none, st1) => runCalls st1 cs

/-- Run one statement.  An assignment binds its target only after its
right-hand side evaluated without error; a try/except runs its handler calls
when a body call raises. -/
def runStmt (st : ExecState) : PyStmt → Option String × ExecState
  | .assign tgt c =>
    match runCall st c with
    | (some n, st1) => (some n, st1)
    | (none, st1) => (none, { st1 with env := tgt :: st1.env })
  | .exprStmt c => runCall st c
  | .tryExcept body handler =>
    match runCalls st body with
    | (none, st1) => (none, st1)
    | (some _, st1) => runCalls st1 handler

/-- Run statements from index `i`, stopping at the first uncaught NameError. -/
def runFrom (i : Nat) (st : ExecState) : List PyStmt → ExecOutcome
  | [] => .ok st
  | stmt :: rest =>
    match runStmt st stmt with
    | (some n, st1) => .nameError n i st1
    | (none, st1) => runFrom (i + 1) st1 rest

/-- Run a script in an environment holding the imported names. -/
def runScript (imports : List String) (script : List PyStmt) : ExecOutcome :=
  runFrom 0 ⟨imports, []⟩ script

/-- Modelled from the spec: the names the `from reaktoro import *` line makes
available.  The reaktoro library is not under `src/`; per the spec's component
design these are the external loader `Gems` and `ChemicalSystem` (external
input-state collaborators, spec sections 1 and 6), the state type
`ChemicalState` (spec section 4.2) and the global-function style `equilibrate`
(spec sections 4.3 and 9).  The name `ChemicalStategems` is not among them. -/
def reaktoroExports : List String :=
  ["Gems", "ChemicalSystem", "ChemicalState", "equilibrate"]

/-- How many call expressions a statement contains. -/
def PyStmt.callCount : PyStmt → Nat
  | .assign _ _ => 1
  | .exprStmt _ => 1
  | .tryExcept body handler => body.length + handler.length

/-- Total number of call expressions in a script. -/
def callCount (script : List PyStmt) : Nat :=
  (script.map PyStmt.callCount).sum

/-- A statement is linear when it is a plain assignment or a bare call, with
no error handling. -/
def PyStmt.isLinear : PyStmt → Bool
  | .assign _ _ => true
  | .exprStmt _ => true
  | .tryExcept _ _ => false

/-- Whether a statement is a bare call to an `output` method. -/
def PyStmt.isOutputCall : PyStmt → Bool
  | .exprStmt c =>
    match c.callee with
    | .cattr _ "output" => true
    | _ => false
  | _ => false

/-
Helper lemmas.
-/

theorem lookupAmount_setEntries_self (l : List (String × ℚ)) (n : String) (a : ℚ)
    (h : hasName l n = true) :
    lookupAmount (setEntries l n a) n = some a := by
  induction l with
  | nil => simp [hasName] at h
  | cons p l ih =>
    by_cases hp : p.1 = n
    · simp [setEntries, lookupAmount, hp]
    · have h2 : hasName l n = true := by simpa [hasName, hp] using h
      simpa [setEntries, lookupAmount, hp] using ih h2

theorem lookupAmount_setEntries_ne (l : List (String × ℚ)) (n m : String) (a : ℚ)
    (hm : m ≠ n) :
    lookupAmount (setEntries l n a) m = lookupAmount l m := by
  have hnm : ¬ (n = m) := fun h => hm h.symm
  induction l with
  | nil => rfl
  | cons p l ih =>
    by_cases hp : p.1 = n
    · simpa [setEntries, lookupAmount, hp, hnm] using ih
    · by_cases hq : p.1 = m
      · simp [setEntries, lookupAmount, hp, hq, hm]
      · simpa [setEntries, lookupAmount, hp, hq] using ih

/-
Claim theorems: species table.
-/

/-- C4: for every table `t`, state `s`, species name `n` and amount `a < 0`,
`set n a` (and `ChemicalState.setSpeciesAmount`, which delegates to it) fails
with the `InvalidAmount` error and leaves the table (resp. the state) exactly
as it was before the call. -/
theorem set_negative_fails (t : SpeciesAmountTable) (s : ChemicalState)
    (n : String) (a : ℚ) (h : a < 0) :
    t.set n a = (some Err.InvalidAmount, t) ∧
    s.setSpeciesAmount n a = (some Err.InvalidAmount, s) := by
  constructor
  · unfold SpeciesAmountTable.set
    rw [if_pos h]
  · unfold ChemicalState.setSpeciesAmount SpeciesAmountTable.set
    rw [if_pos h]

/-- Table used by concrete witnesses. -/
def demoTable : SpeciesAmountTable := ⟨[("A", 1), ("B", 2)], true⟩

/-- Witness for C4 at a concrete table, state and negative amount. -/
theorem set_negative_fails_witness :
    demoTable.set "A" (-1) = (some Err.InvalidAmount, demoTable) ∧
    (ChemicalState.mk 300 100000 demoTable).setSpeciesAmount "A" (-1) =
      (some Err.InvalidAmount, ChemicalState.mk 300 100000 demoTable) :=
  set_negative_fails demoTable (ChemicalState.mk 300 100000 demoTable) "A" (-1)
    (by decide)

/-- C5: for every table `t`, valid species name `n` (present in `t`) and
nonnegative amount `a`, `set n a` succeeds, a subsequent `get n` returns
exactly `a`, and the amount of every species other than `n` is unchanged. -/
theorem set_get_roundtrip (t : SpeciesAmountTable) (n : String) (a : ℚ)
    (hvalid : t.has n = true) (ha : 0 ≤ a) :
    (t.set n a).1 = none ∧
    (t.set n a).2.get n = Except.ok a ∧
    ∀ m : String, m ≠ n → (t.set n a).2.get m = t.get m := by
  have hneg : ¬ a < 0 := not_lt.mpr ha
  unfold SpeciesAmountTable.set
  rw [if_neg hneg, if_pos hvalid]
  refine ⟨rfl, ?_, ?_⟩
  · unfold SpeciesAmountTable.get
    rw [lookupAmount_setEntries_self t.entries n a hvalid]
  · intro m hm
    unfold SpeciesAmountTable.get
    rw [lookupAmount_setEntries_ne t.entries n m a hm]

/-- Witness for C5: set species "A" of a concrete table to 5, read it back,
and check species "B" is untouched. -/
theorem set_get_roundtrip_witness :
    (demoTable.set "A" 5).1 = none ∧
    (demoTable.set "A" 5).2.get "A" = Except.ok 5 ∧
    (demoTable.set "A" 5).2.get "B" = demoTable.get "B" := by
  obtain ⟨h1, h2, h3⟩ := set_get_roundtrip demoTable "A" 5 (by decide) (by decide)
  exact ⟨h1, h2, h3 "B" (by decide)⟩

/-
Claim theorems: reporter and output.
-/

/-- C6: two calls of `format` on the same state — same temperature, same
pressure and the same species-to-amount entries in the table's stable order —
produce identical text; the report depends on nothing else in the state. -/
theorem format_deterministic (s1 s2 : ChemicalState)
    (hT : s1.temperature = s2.temperature) (hP : s1.pressure = s2.pressure)
    (hE : s1.table.entries = s2.table.entries) :
    StateReporter.format s1 = StateReporter.format s2 := by
  unfold StateReporter.format StateReporter.formatLines temperatureLine pressureLine
  rw [hT, hP, hE]

/-- A concrete state whose table was built closed-universe. -/
def c6stateA : ChemicalState := ⟨300, 100000, ⟨[("H2O", 1)], true⟩⟩

/-- The same temperature, pressure and entries, open-universe table. -/
def c6stateB : ChemicalState := ⟨300, 100000, ⟨[("H2O", 1)], false⟩⟩

/-- Witness for C6 at two concrete states with equal temperature, pressure
and entries. -/
theorem format_deterministic_witness :
    StateReporter.format c6stateA = StateReporter.format c6stateB :=
  format_deterministic c6stateA c6stateB rfl rfl rfl

/-- C7: `output` leaves the state unchanged — the returned state is the input
state, so in particular its temperature, pressure and species amounts are
those of the input. -/
theorem output_preserves_state (s : ChemicalState) (p : String) (fs : FileSystem) :
    (s.output p fs).1 = s ∧
    (s.output p fs).1.temperature = s.temperature ∧
    (s.output p fs).1.pressure = s.pressure ∧
    (s.output p fs).1.table.entries = s.table.entries :=
  ⟨rfl, rfl, rfl, rfl⟩

/-- C8: the report is the two header lines (temperature, then pressure)
followed by one line per species in table order; on an empty species table it
is exactly the two header lines with zero species lines. -/
theorem report_shape (s : ChemicalState) :
    StateReporter.formatLines s =
      temperatureLine s :: pressureLine s :: s.table.entries.map speciesLine ∧
    (s.table.entries = [] →
      StateReporter.formatLines s = [temperatureLine s, pressureLine s]) := by
  refine ⟨rfl, fun h => ?_⟩
  unfold StateReporter.formatLines
  rw [h]
  rfl

/-- A concrete state with an empty species table. -/
def emptyState : ChemicalState := ⟨29815 / 100, 100000, ⟨[], true⟩⟩

/-- Witness for C8 at a concrete empty-table state. -/
theorem report_shape_witness :
    StateReporter.formatLines emptyState =
      [temperatureLine emptyState, pressureLine emptyState] :=
  (report_shape emptyState).2 rfl

/-
Helper lemmas for the solver.
-/

theorem map_eq_of_all_eq (l : List String) (f g : String → ℚ)
    (h : l.all (fun e => decide (f e = g e)) = true) : l.map f = l.map g := by
  induction l with
  | nil => rfl
  | cons x xs ih =>
    simp only [List.all_cons, Bool.and_eq_true, decide_eq_true_eq] at h
    simp [List.map_cons, h.1, ih h.2]

theorem elementTotals_eq_of_balanced (m : StoichModel)
    (old new : List (String × ℚ)) (h : balancedWith m old new = true) :
    elementTotals m new = elementTotals m old :=
  map_eq_of_all_eq m.elements _ _ h

theorem balancedWith_refl (m : StoichModel) (l : List (String × ℚ)) :
    balancedWith m l l = true := by
  unfold balancedWith
  rw [List.all_eq_true]
  intro e _
  simp

theorem feasible_of_balanced (m : StoichModel) (old new : List (String × ℚ))
    (hold : feasible m old = true) (hbal : balancedWith m old new = true)
    (hnn : nonnegAmounts new = true) : feasible m new = true := by
  unfold feasible at hold ⊢
  unfold balancedWith at hbal
  rw [Bool.and_eq_true] at hold ⊢
  refine ⟨?_, hnn⟩
  rw [List.all_eq_true] at hbal ⊢
  intro e he
  have h1 := hold.1
  rw [List.all_eq_true] at h1
  have h2 := h1 e he
  have h3 := hbal e he
  rw [decide_eq_true_eq] at h2 h3 ⊢
  rw [h3]
  exact h2

theorem equilibrate_ok_elim (solver : EquilibriumSolver) (s s' : ChemicalState)
    (h : equilibrate solver s = .ok s') :
    feasible solver.model s.table.entries = true ∧
    balancedWith solver.model s.table.entries s'.table.entries = true ∧
    nonnegAmounts s'.table.entries = true ∧
    s' = equilibratedState solver s := by
  unfold equilibrate at h
  by_cases hf : feasible solver.model s.table.entries = true
  · rw [if_pos hf] at h
    by_cases hbn : (balancedWith solver.model s.table.entries
        (equilibrateResult solver s) &&
        nonnegAmounts (equilibrateResult solver s)) = true
    · rw [if_pos hbn] at h
      rw [Except.ok.injEq] at h
      rw [Bool.and_eq_true] at hbn
      subst h
      exact ⟨hf, hbn.1, hbn.2, rfl⟩
    · rw [if_neg hbn] at h
      cases h
  · rw [if_neg hf] at h
    cases h

/-
Claim theorems: solver.
-/

/-- C1: equilibration preserves elemental mass balance — for every solver,
state `s` and element `e` of the stoichiometry model, the total moles of `e`
over the species of `equilibrate s` (each species amount weighted by its
stoichiometric coefficient for `e`) equals the total moles of `e` over the
species of `s`. -/
theorem equilibrate_preserves_mass_balance (solver : EquilibriumSolver)
    (s s' : ChemicalState) (h : equilibrate solver s = .ok s') :
    ∀ e ∈ solver.model.elements,
      elementTotal solver.model s'.table.entries e =
        elementTotal solver.model s.table.entries e := by
  obtain ⟨-, hbal, -, -⟩ := equilibrate_ok_elim solver s s' h
  intro e he
  unfold balancedWith at hbal
  rw [List.all_eq_true] at hbal
  simpa using hbal e he

/-- C3: equilibration at fixed temperature and pressure — for every solver and
state `s`, the state returned by `equilibrate s` has the same temperature and
the same pressure as `s`; only the species amounts change. -/
theorem equilibrate_preserves_temperature_pressure (solver : EquilibriumSolver)
    (s s' : ChemicalState) (h : equilibrate solver s = .ok s') :
    s'.temperature = s.temperature ∧ s'.pressure = s.pressure := by
  obtain ⟨-, -, -, hs⟩ := equilibrate_ok_elim solver s s' h
  rw [hs]
  exact ⟨rfl, rfl⟩

/-- C2: equilibrate is idempotent — for every solver whose external
minimization procedure is a projection (a second minimization of its own
result returns it unchanged, the spec's fixed-point condition on the
equilibrium manifold) and every state `s` that equilibrates to `s'`,
equilibrating `s'` returns `s'` itself: the repeated-equilibration distance is
exactly zero, hence within every configured numerical tolerance. -/
theorem equilibrate_idempotent (solver : EquilibriumSolver)
    (s s' : ChemicalState)
    (hproj : ∀ tp b n, solver.minimize tp b (solver.minimize tp b n) =
      solver.minimize tp b n)
    (h : equilibrate solver s = .ok s') :
    equilibrate solver s' = .ok s' := by
  obtain ⟨hfeas, hbal, hnn, hs⟩ := equilibrate_ok_elim solver s s' h
  obtain ⟨hT, hP⟩ := equilibrate_preserves_temperature_pressure solver s s' h
  have hfeas2 : feasible solver.model s'.table.entries = true :=
    feasible_of_balanced solver.model s.table.entries s'.table.entries
      hfeas hbal hnn
  have htot : elementTotals solver.model s'.table.entries =
      elementTotals solver.model s.table.entries :=
    elementTotals_eq_of_balanced solver.model s.table.entries s'.table.entries hbal
  have hentries : s'.table.entries = equilibrateResult solver s := by
    rw [hs]
    rfl
  have hmin : equilibrateResult solver s' = s'.table.entries := by
    unfold equilibrateResult
    rw [hT, hP, htot, hentries]
    exact hproj _ _ _
  have hcond : (balancedWith solver.model s'.table.entries
      (equilibrateResult solver s') &&
      nonnegAmounts (equilibrateResult solver s')) = true := by
    rw [hmin, Bool.and_eq_true]
    exact ⟨balancedWith_refl solver.model s'.table.entries, hnn⟩
  unfold equilibrate
  rw [if_pos hfeas2, if_pos hcond]
  rw [Except.ok.injEq]
  unfold equilibratedState
  rw [hmin]

/-
A concrete solver instance for the solver witnesses: one pseudo-element of
coefficient 1 in every species, and a minimization that moves all mass onto
the first species.  It preserves the element total and is a projection, so it
satisfies the external-service contract the claims assume.
-/

/-- Move the total amount onto the first species, zeroing the others. -/
def collectFirst : List (String × ℚ) → List (String × ℚ)
  | [] => []
  | p :: rest => (p.1, ((p :: rest).map Prod.snd).sum) :: rest.map (fun q => (q.1, 0))

theorem sum_map_snd_zeroed (l : List (String × ℚ)) :
    ((l.map (fun q => (q.1, (0 : ℚ)))).map Prod.snd).sum = 0 := by
  induction l with
  | nil => rfl
  | cons p rest ih =>
    simp only [List.map_cons, List.sum_cons, ih, add_zero]

theorem map_zeroed_idem (l : List (String × ℚ)) :
    (l.map (fun q => (q.1, (0 : ℚ)))).map (fun q => (q.1, (0 : ℚ))) =
      l.map (fun q => (q.1, (0 : ℚ))) := by
  induction l with
  | nil => rfl
  | cons p rest ih => simp [ih]

theorem collectFirst_idem (l : List (String × ℚ)) :
    collectFirst (collectFirst l) = collectFirst l := by
  cases l with
  | nil => rfl
  | cons p rest =>
    simp only [collectFirst, List.map_cons, List.sum_cons]
    rw [sum_map_snd_zeroed, map_zeroed_idem]
    simp

/-- A concrete solver: one pseudo-element "X" carried with coefficient 1 by
every species, minimization `collectFirst`. -/
def witSolver : EquilibriumSolver where
  model := { elements := ["X"], coeff := fun _ _ => 1 }
  minimize := fun _ _ n => collectFirst n

/-- A concrete perturbed state for the solver witnesses. -/
def witState : ChemicalState := ⟨29815 / 100, 100000, ⟨[("A", 1), ("B", 2)], true⟩⟩

/-- The state `witSolver` equilibrates `witState` to. -/
def witState2 : ChemicalState := ⟨29815 / 100, 100000, ⟨[("A", 3), ("B", 0)], true⟩⟩

theorem equilibrate_wit_eq : equilibrate witSolver witState = Except.ok witState2 := by
  have hres : equilibrateResult witSolver witState = [("A", 3), ("B", 0)] := by
    show collectFirst [("A", (1 : ℚ)), ("B", 2)] = [("A", 3), ("B", 0)]
    norm_num [collectFirst]
  have hfeas : feasible witSolver.model witState.table.entries = true := by
    norm_num [feasible, elementTotal, witSolver, witState]
  have hbal : balancedWith witSolver.model witState.table.entries
      (equilibrateResult witSolver witState) = true := by
    rw [hres]
    norm_num [balancedWith, elementTotal, witSolver, witState]
  have hnn : nonnegAmounts (equilibrateResult witSolver witState) = true := by
    rw [hres]
    norm_num [nonnegAmounts]
  unfold equilibrate
  rw [if_pos hfeas, if_pos (by rw [Bool.and_eq_true]; exact ⟨hbal, hnn⟩)]
  unfold equilibratedState
  rw [hres]
  rfl

/-- Witness for C1: the total of element "X" is 3 mol both before and after
equilibrating the concrete state. -/
theorem equilibrate_preserves_mass_balance_witness :
    elementTotal witSolver.model witState2.table.entries "X" =
      elementTotal witSolver.model witState.table.entries "X" :=
  equilibrate_preserves_mass_balance witSolver witState witState2
    equilibrate_wit_eq "X" (by decide)

/-- Witness for C2: re-equilibrating the already-equilibrated concrete state
returns it unchanged. -/
theorem equilibrate_idempotent_witness :
    equilibrate witSolver witState2 = Except.ok witState2 :=
  equilibrate_idempotent witSolver witState witState2
    (fun _ _ n => collectFirst_idem n) equilibrate_wit_eq

/-- Witness for C3: the concrete equilibration keeps temperature and
pressure. -/
theorem equilibrate_preserves_temperature_pressure_witness :
    witState2.temperature = witState.temperature ∧
      witState2.pressure = witState.pressure :=
  equilibrate_preserves_temperature_pressure witSolver witState witState2
    equilibrate_wit_eq

/-
Claim theorems: the demo script.
-/

/-- C9 counterexample: the script is not a four-statement program with exactly
five calls — it has seven statements and seven call expressions past
the import line. -/
theorem script_not_four_statements :
    ¬ (demoScript.length = 4 ∧ callCount demoScript = 5) := by
  decide

/-- C9 amended: the script is a seven-statement program (past the import,
that is) whose control flow is a linear sequence of exactly seven calls with no
error handling, two of which are the report-writing `output` calls. -/
theorem script_shape :
    demoScript.length = 7 ∧ callCount demoScript = 7 ∧
    demoScript.all PyStmt.isLinear = true ∧
    (demoScript.filter PyStmt.isOutputCall).length = 2 := by
  decide

/-- C10: running the script in an environment holding the library's exported
names raises a NameError for `ChemicalStategems` at the third statement
(index 2), before the first `output` statement (which sits at index 3), with
no report file written; the first two assignments have bound `gems` and
`system`. -/
theorem script_raises_name_error :
    runScript reaktoroExports demoScript =
      ExecOutcome.nameError "ChemicalStategems" 2
        ⟨["system", "gems", "Gems", "ChemicalSystem", "ChemicalState",
          "equilibrate"], []⟩ ∧
    demoScript.findIdx PyStmt.isOutputCall = 3 := by
  exact ⟨rfl, by decide⟩

end Reaktoro
